import Mathlib

/-!
Verification of the slot-booking server (`src/server/index.js`).

The server keeps a single `bookings` table and exposes, among others:
  * `POST /api/bookings` — validation (express-validator chain) followed by a
    slot-occupancy check, a daily-limit check, and an INSERT;
  * `GET /api/slots/:date` — the per-date availability snapshot;
  * `GET /api/admin/stats` — total/available booking counts.

The embedding below models the booking table as a `List Booking` (rows in
insertion order) and each handler as a pure function from the table (and the
request) to its response together with the table after the call.
-/

namespace SlotBooking

/-- A committed row of the `bookings` table (`initSQLiteTable` /
`initDatabase` in `src/server/index.js`).  Every column of the schema is
`NOT NULL`; in particular `email` is a mandatory column even though the
validation chain treats the request field as optional.  `id` and
`created_at` are store-assigned and not needed by any claim, so the row
carries the six client-supplied columns. -/
structure Booking where
  name : String
  email : String
  phone : String
  purpose : String
  date : String
  time_slot : String
deriving Repr, DecidableEq

/-- The JSON body of `POST /api/bookings`.  `email` is `none` when the field
is omitted from the request (the validator marks it `.optional()`). -/
structure Request where
  name : String
  email : Option String
  phone : String
  purpose : String
  date : String
  time_slot : String
deriving Repr, DecidableEq

/-! ### The validation chain (`validateBooking`, index.js lines 155–162) -/

/-- `body('phone').matches(/^[\+]?[1-9][\d]{0,15}$/)`: after an optional
leading `+`, a first digit in 1–9 followed by at most 15 further digits. -/
def phoneCore : List Char → Bool
  | [] => false
  | c :: cs => ('1' ≤ c && c ≤ '9') && cs.all Char.isDigit && cs.length ≤ 15

/-- The phone rule of the chain, applied to the whole string (the regex is
anchored by `^` and `$`). -/
def phoneMatches (s : String) : Bool :=
  match s.toList with
  | '+' :: rest => phoneCore rest
  | cs => phoneCore cs

/-- `body('time_slot').matches(/^([0-1]?[0-9]|2[0-3]):[0-5][0-9]$/)`: an hour
written with one digit `0–9` or two digits `00–23`, a colon, and a minute
`00–59`.  Note the rule checks only this shape — it does not consult the slot
catalog generated by `GET /api/slots/:date`. -/
def timeSlotMatches (s : String) : Bool :=
  match s.toList with
  | [h, ':', m1, m2] => h.isDigit && (('0' ≤ m1 && m1 ≤ '5') && m2.isDigit)
  | [h1, h2, ':', m1, m2] =>
      (((h1 = '0' || h1 = '1') && h2.isDigit) || (h1 = '2' && ('0' ≤ h2 && h2 ≤ '3'))) &&
      (('0' ≤ m1 && m1 ≤ '5') && m2.isDigit)
  | _ => false

/-- Modelled from the spec: "email: optional, must be a syntactically valid
address when present".  The concrete checker is validator.js `isEmail`
(a library dependency whose source is not part of this repository): the
model accepts a string with exactly one `@`, a nonempty local part, and a
nonempty domain that contains a dot and neither starts nor ends with one. -/
def isEmailModel (s : String) : Bool :=
  match s.toList.splitOn '@' with
  | [lp, dom] =>
      decide (0 < lp.length) && decide (0 < dom.length) && dom.contains '.' &&
      !(dom.head? = some '.') && !(dom.getLast? = some '.')
  | _ => false

/-- Modelled from the spec: "normalized (case-folded domain) before storage".
The concrete normalizer is validator.js `normalizeEmail` (library code not in
this repository), whose default options lowercase the address. -/
def normalizeEmail (s : String) : String := ⟨s.toList.map Char.toLower⟩

/-- An ASCII whitespace character, as stripped by the `.trim()` sanitizer. -/
def isSpaceChar (c : Char) : Bool := c = ' ' || c = '\t' || c = '\n' || c = '\r'

/-- The `.trim()` sanitizer: leading and trailing whitespace removed. -/
def trimmed (s : String) : String :=
  ⟨((s.toList.dropWhile isSpaceChar).reverse.dropWhile isSpaceChar).reverse⟩

/-- Modelled from the spec: "date: valid ISO calendar date".  The concrete
checkers are validator.js `isISO8601` (the `body('date')` rule) and moment's
strict `YYYY-MM-DD` parse (`GET /api/slots/:date`), both library code not in
this repository: the model accepts the `YYYY-MM-DD` form with a real
calendar month and day (leap years included). -/
def isValidDate (s : String) : Bool :=
  match s.toList with
  | [y1, y2, y3, y4, '-', m1, m2, '-', d1, d2] =>
      ([y1, y2, y3, y4, m1, m2, d1, d2].all Char.isDigit) &&
      (let y := ((y1.toNat - 48) * 10 + (y2.toNat - 48)) * 100 +
                ((y3.toNat - 48) * 10 + (y4.toNat - 48))
       let mo := (m1.toNat - 48) * 10 + (m2.toNat - 48)
       let da := (d1.toNat - 48) * 10 + (d2.toNat - 48)
       let leap := (y % 4 = 0 && !(y % 100 = 0)) || y % 400 = 0
       let dim : Nat :=
         if mo = 2 then (if leap then 29 else 28)
         else if mo = 4 || mo = 6 || mo = 9 || mo = 11 then 30
         else 31
       decide (1 ≤ mo) && decide (mo ≤ 12) && decide (1 ≤ da) && decide (da ≤ dim))
  | _ => false

/-- `body('name').trim().isLength({min 2, max 255})`. -/
def nameOk (s : String) : Bool := 2 ≤ (trimmed s).length && (trimmed s).length ≤ 255

/-- `body('email').optional().isEmail()`: an absent field passes. -/
def emailOk : Option String → Bool
  | none => true
  | some e => isEmailModel e

/-- `body('purpose').trim().isLength({min 5, max 1000})`. -/
def purposeOk (s : String) : Bool := 5 ≤ (trimmed s).length && (trimmed s).length ≤ 1000

/-- The `validateBooking` middleware chain (index.js lines 155–162) as the
list of `(field, message)` pairs produced by `validationResult(req).array()`:
every rule of the chain runs, so every violated field contributes its entry.
(The `.escape()` sanitizer only HTML-escapes stored text and is not modelled;
no claim concerns the escaped encoding.) -/
def validateBooking (r : Request) : List (String × String) :=
  (if nameOk r.name then [] else
    [("name", "Name must be between 2 and 255 characters long")]) ++
  (if emailOk r.email then [] else [("email", "Must be a valid email")]) ++
  (if phoneMatches r.phone then [] else [("phone", "Must be a valid phone number")]) ++
  (if purposeOk r.purpose then [] else
    [("purpose", "Purpose must be between 5 and 1000 characters long")]) ++
  (if isValidDate r.date then [] else [("date", "Must be a valid date")]) ++
  (if timeSlotMatches r.time_slot then [] else [("time_slot", "Must be a valid time slot")])

/-! ### The admission handler (`POST /api/bookings`, index.js lines 278–360) -/

/-- The rows matching `SELECT id FROM bookings WHERE date = ? AND time_slot = ?`:
the number of existing bookings for a given `(date, time_slot)` pair. -/
def slotCount (db : List Booking) (d t : String) : Nat :=
  (db.filter fun b => b.date = d && b.time_slot = t).length

/-- `SELECT COUNT(*) as count FROM bookings WHERE date = ?`: the number of
existing bookings for a date across all slots. -/
def dateCount (db : List Booking) (d : String) : Nat :=
  (db.filter fun b => b.date = d).length

/-- The distinct rejection responses of `POST /api/bookings`. -/
inductive RejectReason where
  /-- 400 with `errors.array()` — the validation chain reported violations. -/
  | validationError (errs : List (String × String))
  /-- 409 `'This time slot is already booked'` — a row for `(date, time_slot)`
  already exists (the spec calls this cause `SlotFull`). -/
  | slotAlreadyBooked
  /-- 409 `'Daily booking limit reached (50 bookings)'`. -/
  | dailyLimitReached
  /-- 500 `'Failed to create booking'` — the INSERT itself failed; in
  particular an absent `email` binds NULL into the `NOT NULL` email column. -/
  | insertFailed
deriving Repr, DecidableEq

/-- The outcome of `POST /api/bookings`: 201 with the new id, or a rejection. -/
inductive PostOutcome where
  | committed (id : Nat)
  | rejected (reason : RejectReason)
deriving Repr, DecidableEq

/-- The row the INSERT stores for a request whose email field is `e`: the
`trim()` sanitizer has rewritten `name` and `purpose` in the request body and
`normalizeEmail()` has rewritten the email.  (The `.escape()` HTML-entity
rewriting is not modelled; no claim concerns it.) -/
def storedBooking (r : Request) (e : String) : Booking :=
  { name := trimmed r.name, email := normalizeEmail e, phone := r.phone,
    purpose := trimmed r.purpose, date := r.date, time_slot := r.time_slot }

/-- The `POST /api/bookings` handler: validation result first (400 on any
error), then the slot-occupancy query (409 if any row exists for the pair),
then the daily count (409 at 50 or more), then the INSERT, which succeeds
only when the request carries an email (the schema's email column is
`NOT NULL`, so an omitted field makes the INSERT fail with 500).  Returns
the outcome and the table after the call. -/
def postBooking (db : List Booking) (nextId : Nat) (r : Request) :
    PostOutcome × List Booking :=
  if validateBooking r ≠ [] then
    (.rejected (.validationError (validateBooking r)), db)
  else if 0 < slotCount db r.date r.time_slot then (.rejected .slotAlreadyBooked, db)
  else if 50 ≤ dateCount db r.date then (.rejected .dailyLimitReached, db)
  else
    match r.email with
    | none => (.rejected .insertFailed, db)
    | some e => (.committed nextId, db ++ [storedBooking r e])

/-! ### The availability snapshot (`GET /api/slots/:date`, lines 177–230) -/

/-- `HH:mm` rendering of a minutes-since-midnight value, as `moment.format`
produces inside the slot-generation loop. -/
def formatHM (m : Nat) : String :=
  (if m / 60 < 10 then "0" else "") ++ toString (m / 60) ++ ":" ++
  (if m % 60 < 10 then "0" else "") ++ toString (m % 60)

/-- The slot-generation loop: starting at 09:00 (540 minutes), push the
current time and advance 30 minutes while still before 18:00 (1080 minutes).
The fuel argument bounds the iteration count (48 half-hours cover a day). -/
def timeSlotsFrom : Nat → Nat → List String
  | 0, _ => []
  | fuel + 1, cur =>
      if cur < 1080 then formatHM cur :: timeSlotsFrom fuel (cur + 30) else []

/-- The generated slot catalog: the 18 half-hour slots 09:00, 09:30, …, 17:30. -/
def timeSlots : List String := timeSlotsFrom 48 540

/-- The JSON payload of `GET /api/slots/:date`. -/
structure SlotsPayload where
  date : String
  availableSlots : List String
  bookedSlots : List String
  totalBookings : Nat
  maxBookings : Nat
deriving Repr, DecidableEq

/-- The `GET /api/slots/:date` handler: 400 (`none`) on a malformed date,
otherwise the list of booked slot values for the date, the catalog slots not
among them, and `totalBookings = bookedSlots.length`.  The handler only runs
SELECT queries; the returned second component is the table after the call. -/
def getSlots (db : List Booking) (d : String) : Option SlotsPayload × List Booking :=
  if isValidDate d then
    let bookedSlots := (db.filter fun b => b.date = d).map (·.time_slot)
    (some { date := d,
            availableSlots := timeSlots.filter fun s => !bookedSlots.contains s,
            bookedSlots := bookedSlots,
            totalBookings := bookedSlots.length,
            maxBookings := 50 }, db)
  else (none, db)

/-! ### Statistics (`GET /api/admin/stats`, lines 487–524) -/

/-- The JSON payload of `GET /api/admin/stats`.  `availableBookings` is an
integer: the handler computes `50 - total` with no clamping at zero. -/
structure StatsPayload where
  totalBookings : Nat
  maxBookings : Nat
  availableBookings : Int
deriving Repr, DecidableEq

/-- The `GET /api/admin/stats` handler: without a `date` query parameter the
count is `SELECT COUNT(*) FROM bookings` over the whole table; with one it is
scoped to that date.  `availableBookings` is `50 - total`, unclamped. -/
def getStats (db : List Booking) (dateFilter : Option String) : StatsPayload :=
  let total := match dateFilter with
    | some d => dateCount db d
    | none => db.length
  { totalBookings := total, maxBookings := 50,
    availableBookings := (50 : Int) - (total : Int) }

/-! ### The check-then-insert interleaving (index.js lines 286–359)

The handler runs its capacity checks and its INSERT as separate database
calls chained through callbacks, with no transaction around them, so the
event loop may run both requests' check queries before either INSERT.  The
definitions below evaluate that interleaving for two requests. -/

/-- All three admission checks of `POST /api/bookings` evaluated against one
table snapshot: validation clean, no row for the `(date, time_slot)` pair,
daily count below 50. -/
def checksPass (db : List Booking) (r : Request) : Bool :=
  decide (validateBooking r = []) && slotCount db r.date r.time_slot = 0 &&
  dateCount db r.date < 50

/-- The INSERT of `POST /api/bookings` alone (the request's email present,
as the NOT NULL schema requires for it to succeed). -/
def insertBooking (db : List Booking) (r : Request) : List Booking :=
  match r.email with
  | some e => db ++ [storedBooking r e]
  | none => db

/-- Two concurrent `POST /api/bookings` requests under the interleaving
check₁ · check₂ · insert₁ · insert₂, which the untransacted callback chain
permits: both checks read the initial table, then each request that passed
inserts.  Returns each request's admission decision and the final table. -/
def raceRun (db0 : List Booking) (r1 r2 : Request) :
    Bool × Bool × List Booking :=
  let c1 := checksPass db0 r1
  let c2 := checksPass db0 r2
  let db1 := if c1 then insertBooking db0 r1 else db0
  let db2 := if c2 then insertBooking db1 r2 else db1
  (c1, c2, db2)

/-! ### Concrete fixtures used by the witnesses and counterexamples -/

/-- A well-formed booking request for 09:00 on 2024-06-01. -/
def reqJohn : Request :=
  { name := "John Doe", email := some "john@example.com", phone := "1234567890",
    purpose := "Project meeting", date := "2024-06-01", time_slot := "09:00" }

/-- A second well-formed request, by a different person, for the same date
and slot as `reqJohn`. -/
def reqJane : Request :=
  { name := "Jane Roe", email := some "Jane@Example.com", phone := "1987654321",
    purpose := "Design review", date := "2024-06-01", time_slot := "09:00" }

/-- `reqJane` moved to the 09:30 slot of the same date. -/
def reqJane0930 : Request :=
  { reqJane with time_slot := "09:30" }

/-- The table holding the single row committed for `reqJohn`. -/
def db1 : List Booking := [storedBooking reqJohn "john@example.com"]

/-- A table with 50 bookings on 2024-06-01, one in each of the fifty
distinct slot values 10:00 … 10:49 (all of which pass the `HH:MM` rule). -/
def db50 : List Booking :=
  (List.range 50).map fun i =>
    { name := "John Doe", email := "john@example.com", phone := "1234567890",
      purpose := "Project meeting", date := "2024-06-01",
      time_slot := "10:" ++ (if i < 10 then "0" else "") ++ toString i }

/-- A table with 51 rows — more than the 50-booking figure the stats
endpoint subtracts from. -/
def db51 : List Booking :=
  List.replicate 51 (storedBooking reqJohn "john@example.com")

/-- `reqJohn` re-submitted for the 09:30 slot of the same date — the same
identity (same email, same phone) booking twice in the same calendar week. -/
def reqJohn0930 : Request := { reqJohn with time_slot := "09:30" }

/-- `reqJohn` aimed at the free 12:00 slot of 2024-06-01. -/
def reqNoon : Request := { reqJohn with time_slot := "12:00" }

/-- `reqJohn` aimed at the 10:05 slot, which is occupied in `db50`. -/
def reqTaken : Request := { reqJohn with time_slot := "10:05" }

/-- `reqJohn` with a `time_slot` outside the generated catalog (the grid
stops at 17:30) but matching the `HH:MM` shape. -/
def req2000 : Request := { reqJohn with time_slot := "20:00" }

/-- `reqJohn` with the optional email field omitted. -/
def reqNoEmail : Request := { reqJohn with email := none }

/-! ### Helper lemmas -/

/-- After a clean validation result, `POST /api/bookings` is the slot check,
then the daily check, then the INSERT. -/
theorem postBooking_eq (db : List Booking) (id : Nat) (r : Request)
    (hv : validateBooking r = []) :
    postBooking db id r =
      if 0 < slotCount db r.date r.time_slot then (.rejected .slotAlreadyBooked, db)
      else if 50 ≤ dateCount db r.date then (.rejected .dailyLimitReached, db)
      else
        match r.email with
        | none => (.rejected .insertFailed, db)
        | some e => (.committed id, db ++ [storedBooking r e]) := by
  unfold postBooking
  rw [hv]
  simp

/-- Summing the multiplicity of each distinct member of a list recovers its
length. -/
theorem sum_count_toFinset (l : List String) :
    (∑ s in l.toFinset, l.count s) = l.length := by
  classical
  simp

/-! ### The claims -/

/-- C1 (counterexample): the claim says many bookings may share a
`(date, time_slot)` pair up to a per-slot capacity of 100 and that a request
is admitted while the count is below that capacity.  On the code, with a
single existing booking for 09:00 on 2024-06-01 — a count of 1, far below
100 — a validated request by a different person for the same pair is
rejected as slot-already-booked. -/
theorem c1_slot_capacity_counterexample :
    validateBooking reqJane = [] ∧
    slotCount db1 reqJane.date reqJane.time_slot = 1 ∧ (1 : Nat) < 100 ∧
    (postBooking db1 2 reqJane).1 = .rejected .slotAlreadyBooked := by decide

/-- C1 (amended): the per-slot capacity enforced by `POST /api/bookings` is
1, so `(date, time_slot)` acts as a uniqueness key: a validated request is
rejected as slot-already-booked exactly when at least one booking for the
pair exists, and with a free slot, a date below the daily limit, and an
email supplied it is committed, appending exactly the one new row. -/
theorem c1_slot_capacity_one (db : List Booking) (id : Nat) (r : Request)
    (hv : validateBooking r = []) :
    (1 ≤ slotCount db r.date r.time_slot →
       postBooking db id r = (.rejected .slotAlreadyBooked, db)) ∧
    (slotCount db r.date r.time_slot = 0 → dateCount db r.date < 50 →
       ∀ e, r.email = some e →
         postBooking db id r = (.committed id, db ++ [storedBooking r e])) := by
  rw [postBooking_eq db id r hv]
  constructor
  · intro h
    rw [if_pos (show 0 < slotCount db r.date r.time_slot from h)]
  · intro h0 h50 e he
    rw [if_neg (by omega), if_neg (by omega), he]

/-- C1 (witness): with one booking at 09:00 on 2024-06-01 in the table, the
second request for that pair is rejected, while the request for 09:30 the
same day is committed. -/
theorem c1_slot_capacity_one_witness :
    postBooking db1 2 reqJane = (.rejected .slotAlreadyBooked, db1) ∧
    postBooking db1 2 reqJane0930 =
      (.committed 2, db1 ++ [storedBooking reqJane0930 "Jane@Example.com"]) :=
  ⟨(c1_slot_capacity_one db1 2 reqJane (by decide)).1 (by decide),
   (c1_slot_capacity_one db1 2 reqJane0930 (by decide)).2 (by decide) (by decide)
     "Jane@Example.com" rfl⟩

/-- C2 (counterexample): the claim says an identity that already holds a
booking in a calendar week is rejected with WeeklyLimitExceeded for any
further date in that week.  On the code, with a booking by John's exact
email and phone already committed for 2024-06-01, John's request for another
slot of that very date — the same calendar week — is committed, not
rejected. -/
theorem c2_weekly_restriction_counterexample :
    db1.any (fun b => b.email = "john@example.com" && b.phone = reqJohn0930.phone &&
      b.date = reqJohn0930.date) = true ∧
    reqJohn0930.email = some "john@example.com" ∧
    (postBooking db1 2 reqJohn0930).1 = .committed 2 := by decide

/-- C2 (amended): `POST /api/bookings` performs no identity-based check at
all: for two validated requests that agree on date, time slot, and on
whether an email is supplied, the admission outcome is identical whatever
their name, phone, or email value — there is no WeeklyLimitExceeded
rejection in the code. -/
theorem c2_admission_ignores_identity (db : List Booking) (id : Nat)
    (r r2 : Request)
    (hv : validateBooking r = []) (hv2 : validateBooking r2 = [])
    (hd : r.date = r2.date) (ht : r.time_slot = r2.time_slot)
    (he : r.email.isSome = r2.email.isSome) :
    (postBooking db id r).1 = (postBooking db id r2).1 := by
  rw [postBooking_eq db id r hv, postBooking_eq db id r2 hv2, hd, ht]
  by_cases h1 : 0 < slotCount db r2.date r2.time_slot
  · rw [if_pos h1, if_pos h1]
  · rw [if_neg h1, if_neg h1]
    by_cases h2 : 50 ≤ dateCount db r2.date
    · rw [if_pos h2, if_pos h2]
    · rw [if_neg h2, if_neg h2]
      cases hre : r.email with
      | none =>
          cases hre2 : r2.email with
          | none => rfl
          | some e2 => rw [hre, hre2] at he; simp at he
      | some e =>
          cases hre2 : r2.email with
          | none => rw [hre, hre2] at he; simp at he
          | some e2 => rfl

/-- C2 (witness): on the table holding John's 09:00 booking, John's own
09:30 request and Jane's 09:30 request — different name, phone, and email —
get the same outcome. -/
theorem c2_admission_ignores_identity_witness :
    (postBooking db1 2 reqJohn0930).1 = (postBooking db1 2 reqJane0930).1 :=
  c2_admission_ignores_identity db1 2 reqJohn0930 reqJane0930
    (by decide) (by decide) rfl rfl rfl

/-- C3 (confirmed): after a clean validation, when the slot-occupancy check
passes (no booking for the pair) but the date already carries 50 or more
bookings across all slots, the request is rejected with the daily-limit
reason and the table is unchanged; and the slot check is evaluated first —
an occupied slot yields the slot rejection whatever the daily count is. -/
theorem c3_daily_limit_after_slot_check (db : List Booking) (id : Nat)
    (r : Request) (hv : validateBooking r = []) :
    (slotCount db r.date r.time_slot = 0 → 50 ≤ dateCount db r.date →
       postBooking db id r = (.rejected .dailyLimitReached, db)) ∧
    (1 ≤ slotCount db r.date r.time_slot →
       postBooking db id r = (.rejected .slotAlreadyBooked, db)) := by
  rw [postBooking_eq db id r hv]
  constructor
  · intro h0 h50
    rw [if_neg (by omega), if_pos h50]
  · intro h1
    rw [if_pos (show 0 < slotCount db r.date r.time_slot from h1)]

/-- C3 (witness): on a table with 50 bookings dated 2024-06-01, the request
for the free 12:00 slot is rejected with the daily-limit reason and nothing
is inserted, and the request for the occupied 10:05 slot gets the
slot rejection even though the daily limit is also reached. -/
theorem c3_daily_limit_after_slot_check_witness :
    postBooking db50 51 reqNoon = (.rejected .dailyLimitReached, db50) ∧
    postBooking db50 51 reqTaken = (.rejected .slotAlreadyBooked, db50) :=
  ⟨(c3_daily_limit_after_slot_check db50 51 reqNoon (by decide)).1
     (by decide) (by decide),
   (c3_daily_limit_after_slot_check db50 51 reqTaken (by decide)).2 (by decide)⟩

/-- C4 (code defect): the handler's checks and INSERT are separate database
calls with no transaction, so under the interleaving where both requests'
checks read the initial empty table before either INSERT, two concurrent
requests for the same `(date, time_slot)` both pass and both insert: the
final table holds 2 bookings for a pair the sequential check caps at 1. -/
theorem c4_race_overbooks_slot :
    (raceRun [] reqJohn reqJane).1 = true ∧
    (raceRun [] reqJohn reqJane).2.1 = true ∧
    slotCount (raceRun [] reqJohn reqJane).2.2 "2024-06-01" "09:00" = 2 ∧
    (1 : Nat) < slotCount (raceRun [] reqJohn reqJane).2.2 "2024-06-01" "09:00" := by
  decide

/-- C5 (confirmed): the validation stage reports every violated field — a
field's name appears among the reported errors exactly when its rule fails —
and the bounds behave as claimed: the trimmed two-character name accepted
(inclusive lower bound), the three-character purpose rejected, and the
phone value `abc` rejected with an error naming the phone field (on an
otherwise valid request it is the only reported error). -/
theorem c5_validation_enumerates_and_bounds :
    (∀ r : Request,
      (("name" ∈ (validateBooking r).map Prod.fst) ↔ nameOk r.name = false) ∧
      (("email" ∈ (validateBooking r).map Prod.fst) ↔ emailOk r.email = false) ∧
      (("phone" ∈ (validateBooking r).map Prod.fst) ↔ phoneMatches r.phone = false) ∧
      (("purpose" ∈ (validateBooking r).map Prod.fst) ↔ purposeOk r.purpose = false) ∧
      (("date" ∈ (validateBooking r).map Prod.fst) ↔ isValidDate r.date = false) ∧
      (("time_slot" ∈ (validateBooking r).map Prod.fst) ↔
         timeSlotMatches r.time_slot = false)) ∧
    nameOk "Jo" = true ∧ purposeOk "abc" = false ∧ phoneMatches "abc" = false ∧
    validateBooking { reqJohn with phone := "abc" } =
      [("phone", "Must be a valid phone number")] := by
  refine ⟨fun r => ?_, by decide, by decide, by decide, by decide⟩
  cases hn : nameOk r.name <;> cases he : emailOk r.email <;>
    cases hp : phoneMatches r.phone <;> cases hpu : purposeOk r.purpose <;>
    cases hd : isValidDate r.date <;> cases ht : timeSlotMatches r.time_slot <;>
    simp [validateBooking, hn, he, hp, hpu, hd, ht]

/-- C6 (counterexample): the claim says a `time_slot` outside the generated
catalog is rejected with a validation error.  The value 20:00 matches the
`HH:MM` rule, is not in the 09:00–17:30 catalog, and a request carrying it
passes validation and is committed on an empty table. -/
theorem c6_time_slot_catalog_counterexample :
    timeSlotMatches "20:00" = true ∧ ¬ ("20:00" ∈ timeSlots) ∧
    validateBooking req2000 = [] ∧
    (postBooking [] 1 req2000).1 = .committed 1 := by decide

/-- C6 (amended): the `time_slot` rule checks only the `HH:MM` 24-hour
shape, never catalog membership: every catalog slot passes the rule, but so
do well-formed times outside the catalog such as 20:00. -/
theorem c6_time_slot_format_only :
    timeSlots.all timeSlotMatches = true ∧
    timeSlotMatches "20:00" = true ∧ ¬ ("20:00" ∈ timeSlots) := by decide

/-- C7 (code defect): the validator marks email optional, but the schema
declares the email column `NOT NULL`, so a request that omits email passes
validation, passes both admission checks on an empty table, and then fails
at the INSERT — it is never committed, contradicting the claim. -/
theorem c7_optional_email_insert_fails :
    validateBooking reqNoEmail = [] ∧
    postBooking [] 1 reqNoEmail = (.rejected .insertFailed, []) := by decide

/-- C8 (confirmed): for a valid date the availability snapshot is
consistent: the sum of the per-slot multiplicities over the reported booked
slots — equivalently the length of `bookedSlots` — equals `totalBookings`
of the same call, and the table after the call is the table before it. -/
theorem c8_availability_consistent (db : List Booking) (d : String)
    (h : isValidDate d = true) :
    ∃ p : SlotsPayload, (getSlots db d).1 = some p ∧
      (∑ s in p.bookedSlots.toFinset, p.bookedSlots.count s) = p.totalBookings ∧
      p.bookedSlots.length = p.totalBookings ∧
      (getSlots db d).2 = db := by
  refine ⟨{ date := d,
            availableSlots := timeSlots.filter fun s =>
              !((db.filter fun b => b.date = d).map (·.time_slot)).contains s,
            bookedSlots := (db.filter fun b => b.date = d).map (·.time_slot),
            totalBookings := ((db.filter fun b => b.date = d).map (·.time_slot)).length,
            maxBookings := 50 }, ?_, ?_, rfl, ?_⟩
  · simp [getSlots, h]
  · exact sum_count_toFinset _
  · simp [getSlots, h]

/-- C8 (witness): the snapshot for 2024-06-01 over the one-booking table. -/
theorem c8_availability_consistent_witness :
    isValidDate "2024-06-01" = true ∧
    ∃ p : SlotsPayload, (getSlots db1 "2024-06-01").1 = some p ∧
      (∑ s in p.bookedSlots.toFinset, p.bookedSlots.count s) = p.totalBookings ∧
      p.bookedSlots.length = p.totalBookings ∧
      (getSlots db1 "2024-06-01").2 = db1 :=
  ⟨by decide, c8_availability_consistent db1 "2024-06-01" (by decide)⟩

/-- C9 (confirmed): every admission request ends in exactly one of two
shapes: committed, returning the new id with exactly one row appended, or
rejected with a reason, the table left exactly as it was — every rejection
path (validation failure, occupied slot, daily limit, failed INSERT) leaves
the table unchanged. -/
theorem c9_commit_or_reject (db : List Booking) (id : Nat) (r : Request) :
    (∃ b, postBooking db id r = (.committed id, db ++ [b])) ∨
    (∃ reason, postBooking db id r = (.rejected reason, db)) := by
  unfold postBooking
  split
  · exact Or.inr ⟨_, rfl⟩
  · split
    · exact Or.inr ⟨_, rfl⟩
    · split
      · exact Or.inr ⟨_, rfl⟩
      · split
        · exact Or.inr ⟨_, rfl⟩
        · exact Or.inl ⟨_, rfl⟩

/-- C10 (confirmed): the stats endpoint without a date filter reports the
all-time booking count and `availableBookings = 50 - totalBookings` with no
clamping, so whenever the table holds more than 50 bookings the reported
availability is negative. -/
theorem c10_stats_unclamped (db : List Booking) (h : 50 < db.length) :
    (∀ db2 : List Booking,
       (getStats db2 none).totalBookings = db2.length ∧
       (getStats db2 none).availableBookings = 50 - (db2.length : Int)) ∧
    (getStats db none).availableBookings < 0 := by
  refine ⟨fun db2 => ⟨rfl, rfl⟩, ?_⟩
  simp only [getStats]
  omega

/-- C10 (witness): with 51 bookings the endpoint reports −1 available. -/
theorem c10_stats_unclamped_witness :
    50 < db51.length ∧
    ((∀ db2 : List Booking,
       (getStats db2 none).totalBookings = db2.length ∧
       (getStats db2 none).availableBookings = 50 - (db2.length : Int)) ∧
     (getStats db51 none).availableBookings < 0) :=
  ⟨by decide, c10_stats_unclamped db51 (by decide)⟩

end SlotBooking
